import Mathlib

/-!
Verification of the packaging script `setup.py` of the `longread_plots`
repository.  The script is straight-line Python: it opens `README.md` in a
`with` block, reads it once into `long_description`, and then calls
`setuptools.setup` with a fixed set of keyword arguments.  We embed the
script shallowly: the keyword arguments become a record, the module body
becomes a pure function of an environment (presence/contents of
`README.md`, a possible mid-read failure, the directory scan performed by
`setuptools.find_packages`, plus environment variables, a clock and a
random seed that the script never consults), and the observable behaviour
of the body becomes an explicit event trace.
-/

namespace LongreadPlots

/-- The keyword arguments of the single `setuptools.setup(...)` call in
`setup.py`, in source order.  `entry_points` is not passed by the script,
so it is modelled as an `Option` that the call leaves at `none`. -/
structure SetupArgs where
  name : String
  version : String
  author : String
  author_email : String
  license : String
  description : String
  long_description : String
  long_description_content_type : String
  url : String
  packages : List String
  scripts : List String
  classifiers : List String
  install_requires : List String
  entry_points : Option (List (String × String))
  deriving Repr, DecidableEq

/-- The literal argument record built by `setup.py`: every field is the
constant written in the source except `long_description` (the text read
from `README.md`) and `packages` (the result of
`setuptools.find_packages()`). -/
def setupArgs (long_description : String) (packages : List String) : SetupArgs :=
  { name := "lrplots"
    version := "0.7.0"
    author := "Andy Hauser"
    author_email := "Andreas.Hauser@LMU.de"
    license := "LICENSE"
    description := "Plot collection for Long Read Sequencing"
    long_description := long_description
    long_description_content_type := "text/markdown"
    url := "https://github.com/ahcm/longread_plots"
    packages := packages
    scripts := ["bin/lrplot"]
    classifiers :=
      [ "Programming Language :: Python :: 3"
      , "License :: OSI Approved :: MIT License"
      , "Operating System :: OS Independent" ]
    install_requires := ["seaborn", "matplotlib!=3.6.1", "pandas"]
    entry_points := none }

/-- The world the script runs in.  `readme = some c` means `README.md`
exists, can be opened for reading, and holds text `c`; `readFails` makes
the `fh.read()` call itself raise after a successful open (so the file was
not, in fact, readable).  `packagesOnDisk` is what
`setuptools.find_packages()` reports for the surrounding directory.
`envVars`, `clock` and `randomSeed` model ambient state the interpreter
could offer; the script never reads them. -/
structure Env where
  readme : Option String
  readFails : Bool
  packagesOnDisk : List String
  envVars : String → Option String
  clock : Nat
  randomSeed : Nat

/-- `README.md` is present and readable: it can be opened and the read of
its contents completes. -/
def Env.readmePresentAndReadable (env : Env) : Bool :=
  env.readme.isSome && !env.readFails

/-- Outcome of running the module body: either an uncaught file-I/O error
propagates out, or `setuptools.setup` is reached with its arguments. -/
inductive ScriptResult where
  | ioError : ScriptResult
  | setupCalled : SetupArgs → ScriptResult
  deriving Repr, DecidableEq

/-- The module body of `setup.py`.  `open("README.md", "r")` raises when
the file is absent; `fh.read()` may raise; there is no `try`/`except`, so
either exception escapes and `setuptools.setup` is never reached.
Otherwise `setup` is called with the fixed keyword arguments. -/
def runSetupPy (env : Env) : ScriptResult :=
  match env.readme with
  | none => .ioError
  | some contents =>
    if env.readFails then .ioError
    else .setupCalled (setupArgs contents env.packagesOnDisk)

/-- Whether the script ran to completion (the build-relevant notion of
success for the manifest). -/
def scriptSucceeds (env : Env) : Bool :=
  match runSetupPy env with
  | .setupCalled _ => true
  | .ioError => false

/-- Observable events of one run of the module body. -/
inductive Event where
  | openOk : String → String → Event
  | openFail : String → Event
  | readOk : String → String → Event
  | readFail : String → Event
  | closeFile : String → Event
  | spawnThread : Event
  | callSetup : SetupArgs → Event
  deriving Repr, DecidableEq

/-- The file a file-I/O event touches, if any. -/
def Event.filePath : Event → Option String
  | .openOk p _ => some p
  | .openFail p => some p
  | .readOk p _ => some p
  | .readFail p => some p
  | .closeFile p => some p
  | .spawnThread => none
  | .callSetup _ => none

/-- Is the event a thread/task spawn?  The script contains none. -/
def Event.isSpawn : Event → Bool
  | .spawnThread => true
  | _ => false

/-- Is the event the invocation of `setuptools.setup`? -/
def Event.isSetupCall : Event → Bool
  | .callSetup _ => true
  | _ => false

/-- Is the event a read of a file? -/
def Event.isRead : Event → Bool
  | .readOk _ _ => true
  | .readFail _ => true
  | _ => false

/-- Does the event touch a file other than `README.md`? -/
def Event.touchesOtherFile (e : Event) : Bool :=
  match e.filePath with
  | some p => p != "README.md"
  | none => false

/-- The event trace of the module body.  The `with` statement closes the
file handle when the block is exited, whether the read returned or raised;
the `setup` call sits after the `with` block, so it can only appear after
the close. -/
def scriptTrace (env : Env) : List Event :=
  match env.readme with
  | none => [.openFail "README.md"]
  | some c =>
    if env.readFails then
      [.openOk "README.md" "r", .readFail "README.md", .closeFile "README.md"]
    else
      [.openOk "README.md" "r", .readOk "README.md" c, .closeFile "README.md",
       .callSetup (setupArgs c env.packagesOnDisk)]

/-- A `setup.py` keyword-argument record with the one directory-dependent
field (`packages`) blanked, for comparing runs. -/
def eraseVarying (a : SetupArgs) : SetupArgs :=
  { a with packages := [] }

/-- A single version constraint of a PEP 508 requirement string:
a comparison operator together with the version text it compares to. -/
structure Constraint where
  op : String
  version : String
  deriving Repr, DecidableEq

/-- Splits a character list at the first occurrence of `op`, returning the
text before and after it, or `none` when `op` does not occur. -/
def splitFirst (op : List Char) : List Char → Option (List Char × List Char)
  | [] => none
  | c :: cs =>
    if op.isPrefixOf (c :: cs) then some ([], (c :: cs).drop op.length)
    else
      match splitFirst op cs with
      | some (pre, post) => some (c :: pre, post)
      | none => none

/-- The PEP 440 comparison operators, longest first so that a longer
operator is never mis-read as a shorter one it contains. -/
def specOps : List String := ["===", "==", "!=", "<=", ">=", "~=", "<", ">"]

/-- Parses one `install_requires` entry into the distribution name and its
version constraints.  The entries of this manifest carry at most one
specifier and no commas, which is all this needs to handle. -/
def parseRequirement (s : String) : String × List Constraint :=
  match specOps.findSome? (fun op =>
      (splitFirst op.data s.data).map (fun pr => (op, pr))) with
  | some (op, (n, v)) => (String.mk n, [{ op := op, version := String.mk v }])
  | none => (s, [])

/-- Numeric component of a semantic version: decimal digits with no
leading zero (a lone `0` is allowed). -/
def validNumeric : List Char → Bool
  | [] => false
  | [c] => c.isDigit
  | c :: rest => c.isDigit && c != '0' && rest.all Char.isDigit

/-- Splits a character list on a separator character. -/
def splitOnChar (sep : Char) : List Char → List (List Char)
  | [] => [[]]
  | x :: xs =>
    let rest := splitOnChar sep xs
    if x = sep then [] :: rest
    else
      match rest with
      | [] => [[x]]
      | r :: rs => (x :: r) :: rs

/-- Decimal value of a digit list. -/
def natOfDigits (cs : List Char) : Nat :=
  cs.foldl (fun acc c => acc * 10 + (c.toNat - 48)) 0

/-- A parsed semantic version `major.minor.patch`. -/
structure SemVer where
  major : Nat
  minor : Nat
  patch : Nat
  deriving Repr, DecidableEq

/-- Parses well-formed `major.minor.patch` semantic-version text. -/
def parseSemVer (s : String) : Option SemVer :=
  match splitOnChar '.' s.data with
  | [a, b, c] =>
    if validNumeric a && validNumeric b && validNumeric c then
      some { major := natOfDigits a, minor := natOfDigits b, patch := natOfDigits c }
    else none
  | _ => none

/-- Strict semantic-version ordering (lexicographic on the three numeric
components). -/
def semVerLt (a b : SemVer) : Bool :=
  Nat.blt a.major b.major ||
    (a.major == b.major && (Nat.blt a.minor b.minor ||
      (a.minor == b.minor && Nat.blt a.patch b.patch)))

/-- Is the list strictly increasing under `semVerLt`? -/
def strictlyIncreasing : List SemVer → Bool
  | a :: b :: rest => semVerLt a b && strictlyIncreasing (b :: rest)
  | _ => true

/-- Modelled from the spec: only the final revision of `setup.py` is under
`src/`; the spec records the version strings declared by the two earlier
revisions, which are absent from the supplied source, as `0.4.1` and
`0.6.1`, followed by the supplied revision, which declares `0.7.0`. -/
def revisionVersions : List String := ["0.4.1", "0.6.1", "0.7.0"]

/-- An environment without a `README.md`. -/
def envNoReadme : Env :=
  { readme := none, readFails := false, packagesOnDisk := []
    envVars := fun _ => none, clock := 0, randomSeed := 0 }

/-- An environment where `README.md` opens but the read raises. -/
def envReadFails : Env :=
  { readme := some "# lrplots", readFails := true, packagesOnDisk := []
    envVars := fun _ => none, clock := 0, randomSeed := 0 }

/-- An environment where the script runs to completion. -/
def envOk : Env :=
  { readme := some "# lrplots", readFails := false, packagesOnDisk := ["lrplots"]
    envVars := fun _ => none, clock := 0, randomSeed := 0 }

/-- A second completing environment with the same `README.md` text but
different ambient state and directory contents. -/
def envOkAlt : Env :=
  { readme := some "# lrplots", readFails := false
    packagesOnDisk := ["lrplots", "extra"]
    envVars := fun k => some k, clock := 7, randomSeed := 42 }

/-- C1: the module body completes (reaching `setuptools.setup`) exactly
when `README.md` is present and readable; when the file is absent the
module-level open raises, the trace ends at that failure with nothing
handling it, and `setuptools.setup` is never invoked. -/
theorem C1_build_succeeds_iff_readme (env : Env) :
    scriptSucceeds env = env.readmePresentAndReadable ∧
    (env.readme = none →
      runSetupPy env = .ioError ∧
      scriptTrace env = [.openFail "README.md"] ∧
      ∀ a, Event.callSetup a ∉ scriptTrace env) := by
  obtain ⟨r, f, p, v, cl, s⟩ := env
  constructor
  · cases r <;> cases f <;>
      simp [scriptSucceeds, runSetupPy, Env.readmePresentAndReadable]
  · intro h
    cases r with
    | none => simp [runSetupPy, scriptTrace]
    | some c => simp at h

/-- Witness for C1 at the concrete environment lacking `README.md`. -/
theorem C1_build_succeeds_iff_readme_witness :
    scriptSucceeds envNoReadme = envNoReadme.readmePresentAndReadable ∧
    (runSetupPy envNoReadme = .ioError ∧
      scriptTrace envNoReadme = [.openFail "README.md"] ∧
      ∀ a, Event.callSetup a ∉ scriptTrace envNoReadme) :=
  ⟨(C1_build_succeeds_iff_readme envNoReadme).1,
   (C1_build_succeeds_iff_readme envNoReadme).2 rfl⟩

/-- C2: `install_requires` is exactly the three entries `seaborn`,
`matplotlib!=3.6.1` and `pandas`; parsed, `seaborn` and `pandas` carry no
version constraint at all and the sole constraint on `matplotlib` excludes
the single version 3.6.1. -/
theorem C2_install_requires_exact (c : String) (p : List String) :
    (setupArgs c p).install_requires = ["seaborn", "matplotlib!=3.6.1", "pandas"] ∧
    (setupArgs c p).install_requires.length = 3 ∧
    (setupArgs c p).install_requires.map parseRequirement =
      [("seaborn", []),
       ("matplotlib", [{ op := "!=", version := "3.6.1" }]),
       ("pandas", [])] :=
  ⟨rfl, rfl, by simp only [setupArgs]; decide⟩

/-- C3: when the script reaches `setuptools.setup`, the passed
`long_description` is exactly the text returned by the single read of
`README.md`, and `long_description_content_type` is `text/markdown`. -/
theorem C3_long_description_from_readme (env : Env) (c : String)
    (h : env.readme = some c) (hf : env.readFails = false) :
    ∃ a, runSetupPy env = .setupCalled a ∧
      a.long_description = c ∧
      a.long_description_content_type = "text/markdown" ∧
      (scriptTrace env).countP Event.isRead = 1 ∧
      Event.readOk "README.md" c ∈ scriptTrace env := by
  refine ⟨setupArgs c env.packagesOnDisk, ?_, rfl, rfl, ?_, ?_⟩ <;>
    simp [runSetupPy, scriptTrace, h, hf, List.countP_cons, List.countP_nil, Event.isRead]

/-- Witness for C3 at the concrete environment `envOk`. -/
theorem C3_long_description_from_readme_witness :
    ∃ a, runSetupPy envOk = .setupCalled a ∧
      a.long_description = "# lrplots" ∧
      a.long_description_content_type = "text/markdown" ∧
      (scriptTrace envOk).countP Event.isRead = 1 ∧
      Event.readOk "README.md" "# lrplots" ∈ scriptTrace envOk :=
  C3_long_description_from_readme envOk "# lrplots" rfl rfl

/-- C4: the `setup` call registers exactly one external script, the path
`bin/lrplot`, the sole console executable the manifest declares, and it
passes no `entry_points`, so no other script or entry point exists. -/
theorem C4_single_script (c : String) (p : List String) :
    (setupArgs c p).scripts = ["bin/lrplot"] ∧
    (setupArgs c p).scripts.length = 1 ∧
    (setupArgs c p).entry_points = none :=
  ⟨rfl, rfl, rfl⟩

/-- C5: the supplied revision declares version `0.7.0`; all three recorded
revision version strings are well-formed semantic-version text and the
parsed versions strictly increase across revisions:
0.4.1 < 0.6.1 < 0.7.0. -/
theorem C5_versions_semver_monotone (c : String) (p : List String) :
    revisionVersions = ["0.4.1", "0.6.1", (setupArgs c p).version] ∧
    revisionVersions.all (fun v => (parseSemVer v).isSome) = true ∧
    revisionVersions.filterMap parseSemVer = [⟨0, 4, 1⟩, ⟨0, 6, 1⟩, ⟨0, 7, 0⟩] ∧
    strictlyIncreasing (revisionVersions.filterMap parseSemVer) = true :=
  ⟨rfl, by decide, by decide, by decide⟩

/-- C6: the license is declared as MIT only through the classifier list,
while the `license` field itself holds the file-reference string
`LICENSE`, not a license name. -/
theorem C6_license_field_and_classifier (c : String) (p : List String) :
    (setupArgs c p).license = "LICENSE" ∧
    "License :: OSI Approved :: MIT License" ∈ (setupArgs c p).classifiers ∧
    (setupArgs c p).license ≠ "MIT" ∧
    (setupArgs c p).license ≠ "MIT License" := by
  refine ⟨rfl, ?_, ?_, ?_⟩ <;> simp only [setupArgs] <;> decide

/-- C7: the package name passed to `setuptools.setup` is exactly
`lrplots`, which differs both from the repository name `longread_plots`
and from the script name `lrplot`. -/
theorem C7_package_name (c : String) (p : List String) :
    (setupArgs c p).name = "lrplots" ∧
    (setupArgs c p).name ≠ "longread_plots" ∧
    (setupArgs c p).name ≠ "lrplot" := by
  refine ⟨rfl, ?_, ?_⟩ <;> simp only [setupArgs] <;> decide

/-- C8: one straight-line synchronous run: the trace spawns no threads,
every file-I/O event it performs touches only `README.md`, and
`setuptools.setup` is called at most once — exactly once when the script
succeeds. -/
theorem C8_straight_line_frame (env : Env) :
    (scriptTrace env).all (fun e => !e.isSpawn) = true ∧
    (scriptTrace env).all (fun e => !e.touchesOtherFile) = true ∧
    (scriptTrace env).countP Event.isSetupCall ≤ 1 ∧
    (scriptSucceeds env = true → (scriptTrace env).countP Event.isSetupCall = 1) := by
  obtain ⟨r, f, p, v, cl, s⟩ := env
  cases r <;> cases f <;>
    simp [scriptTrace, scriptSucceeds, runSetupPy, Event.isSpawn, Event.touchesOtherFile,
      Event.filePath, Event.isSetupCall, List.countP_cons, List.countP_nil]

/-- Witness for C8 at the concrete environment `envOk`, where the script
succeeds and `setuptools.setup` is called exactly once. -/
theorem C8_straight_line_frame_witness :
    (scriptTrace envOk).all (fun e => !e.isSpawn) = true ∧
    (scriptTrace envOk).all (fun e => !e.touchesOtherFile) = true ∧
    (scriptTrace envOk).countP Event.isSetupCall ≤ 1 ∧
    (scriptTrace envOk).countP Event.isSetupCall = 1 :=
  ⟨(C8_straight_line_frame envOk).1, (C8_straight_line_frame envOk).2.1,
   (C8_straight_line_frame envOk).2.2.1, (C8_straight_line_frame envOk).2.2.2 rfl⟩

/-- C9: the `with` statement closes the `README.md` handle on every path
where the open succeeded — including the path where the read itself
raises — and any invocation of `setuptools.setup` occurs strictly after
that close in the trace. -/
theorem C9_close_before_setup (env : Env) :
    (env.readme.isSome = true → Event.closeFile "README.md" ∈ scriptTrace env) ∧
    (∀ a, Event.callSetup a ∈ scriptTrace env →
      ∃ pre post, scriptTrace env = pre ++ Event.callSetup a :: post ∧
        Event.closeFile "README.md" ∈ pre) := by
  obtain ⟨r, f, p, v, cl, s⟩ := env
  cases r with
  | none =>
    refine ⟨by simp, ?_⟩
    intro a ha
    simp [scriptTrace] at ha
  | some c =>
    cases f with
    | true =>
      refine ⟨fun _ => by simp [scriptTrace], ?_⟩
      intro a ha
      simp [scriptTrace] at ha
    | false =>
      refine ⟨fun _ => by simp [scriptTrace], ?_⟩
      intro a ha
      have hae : a = setupArgs c p := by
        simpa [scriptTrace] using ha
      refine ⟨[.openOk "README.md" "r", .readOk "README.md" c, .closeFile "README.md"],
        [], ?_, by simp⟩
      simp [scriptTrace, hae]

/-- Witness for C9: at `envReadFails` the handle is still closed although
the read raised; at `envOk` the `setup` call sits strictly after the
close. -/
theorem C9_close_before_setup_witness :
    Event.closeFile "README.md" ∈ scriptTrace envReadFails ∧
    ∃ pre post, scriptTrace envOk =
        pre ++ Event.callSetup (setupArgs "# lrplots" ["lrplots"]) :: post ∧
      Event.closeFile "README.md" ∈ pre :=
  ⟨(C9_close_before_setup envReadFails).1 rfl,
   (C9_close_before_setup envOk).2 (setupArgs "# lrplots" ["lrplots"]) (by decide)⟩

/-- C10: determinism: any two runs whose `README.md` holds the same text
pass identical keyword arguments to `setuptools.setup` apart from
`packages`, which equals each run's own `find_packages()` result — no
argument depends on environment variables, the clock or randomness. -/
theorem C10_deterministic (env₁ env₂ : Env) (c : String)
    (h₁ : env₁.readme = some c) (h₂ : env₂.readme = some c)
    (hf₁ : env₁.readFails = false) (hf₂ : env₂.readFails = false) :
    ∃ a₁ a₂,
      runSetupPy env₁ = .setupCalled a₁ ∧
      runSetupPy env₂ = .setupCalled a₂ ∧
      eraseVarying a₁ = eraseVarying a₂ ∧
      a₁.packages = env₁.packagesOnDisk ∧
      a₂.packages = env₂.packagesOnDisk := by
  refine ⟨setupArgs c env₁.packagesOnDisk, setupArgs c env₂.packagesOnDisk,
    ?_, ?_, rfl, rfl, rfl⟩ <;>
    simp [runSetupPy, h₁, h₂, hf₁, hf₂]

/-- Witness for C10: `envOk` and `envOkAlt` share the README text but
differ in directory contents, environment variables, clock and random
seed; the `setup` arguments agree on everything but `packages`. -/
theorem C10_deterministic_witness :
    ∃ a₁ a₂,
      runSetupPy envOk = .setupCalled a₁ ∧
      runSetupPy envOkAlt = .setupCalled a₂ ∧
      eraseVarying a₁ = eraseVarying a₂ ∧
      a₁.packages = envOk.packagesOnDisk ∧
      a₂.packages = envOkAlt.packagesOnDisk :=
  C10_deterministic envOk envOkAlt "# lrplots" rfl rfl rfl rfl

end LongreadPlots
